import Mathlib

/-!
# Burst Analyzer front end (`app/static/js/app.js`)

A shallow embedding of the `BurstAnalyzer` class: the values it handles, the
part of the page it reads and writes, and its event handlers as functions on
an explicit application state.

Conventions of the embedding:

* an object is the list of its own properties in enumeration order; a property
  read looks at the own properties first and then at `Object.prototype`;
* numbers are integers, printed in decimal;
* an element found by `document.getElementById` is `some`, a missing one `none`;
* a handler that can end with an uncaught exception returns a `Completion`:
  the state it leaves and the exception; a handler with its own `try`/`catch`
  returns the state;
* the outcome of the network request and the current date are arguments.
-/

namespace BurstAnalyzer

/-! ## JavaScript values -/

/-- The values a cell, a field of a raw record or a property read can hold.
Numbers are the integer-valued ones (counts, identifiers); `builtin` stands for
a member inherited from `Object.prototype`, which a property read finds when
the object has no own property of that name. -/
inductive JSValue where
  | undefined : JSValue
  | null : JSValue
  | bool (b : Bool) : JSValue
  | num (n : Int) : JSValue
  | str (s : String) : JSValue
  | builtin (name : String) : JSValue
  deriving DecidableEq, Repr

/-- Names that every plain object inherits from `Object.prototype`. -/
def objectPrototypeKeys : List String :=
  ["constructor", "__defineGetter__", "__defineSetter__", "hasOwnProperty",
   "__lookupGetter__", "__lookupSetter__", "isPrototypeOf", "propertyIsEnumerable",
   "toString", "valueOf", "__proto__", "toLocaleString"]

/-- Text of an inherited member: `Object.prototype` itself prints as an object,
`constructor` is the function `Object`, the others are functions of their own name. -/
def builtinToString (name : String) : String :=
  if name = "__proto__" then "[object Object]"
  else if name = "constructor" then "function Object() \x7b [native code] \x7d"
  else "function " ++ name ++ "() \x7b [native code] \x7d"

/-- Number to string for an integer value: decimal digits, with a minus sign. -/
def numToString (n : Int) : String :=
  match n with
  | Int.ofNat m => Nat.repr m
  | Int.negSucc m => "-" ++ Nat.repr (m + 1)

/-- The conversion `String(value)`, also applied by a template literal. -/
def JSValue.toStr : JSValue → String
  | .undefined => "undefined"
  | .null => "null"
  | .bool true => "true"
  | .bool false => "false"
  | .num n => numToString n
  | .str s => s
  | .builtin name => builtinToString name

/-- Truthiness, as tested by `!x`, `if (x)` and `x || y`. -/
def JSValue.truthy : JSValue → Bool
  | .undefined => false
  | .null => false
  | .bool b => b
  | .num n => n != 0
  | .str s => s != ""
  | .builtin _ => true

/-- The expression `a || b`. -/
def JSValue.or (a b : JSValue) : JSValue :=
  if a.truthy then a else b

/-- A plain object: its own enumerable properties in enumeration order (the
order of `Object.keys`, `Object.values` and `Object.entries`). -/
abbrev JSObject (α : Type) := List (String × α)

/-- Own property of an object, if it has one of that name. -/
def ownProp {α : Type} (o : JSObject α) (key : String) : Option α :=
  match o with
  | [] => none
  | (k, v) :: rest => if k = key then some v else ownProp rest key

/-- Result of the property read `o[key]` on a plain object. -/
inductive PropRead (α : Type) where
  | own (v : α) : PropRead α
  | inherited (name : String) : PropRead α
  | absent : PropRead α
  deriving DecidableEq, Repr

/-- The property read `o[key]`: the own property, else the member inherited
from `Object.prototype`, else `undefined`. -/
def getProp {α : Type} (o : JSObject α) (key : String) : PropRead α :=
  match ownProp o key with
  | some v => .own v
  | none => if key ∈ objectPrototypeKeys then .inherited key else .absent

/-- A property read as a value, for objects whose properties are values. -/
def PropRead.toValue : PropRead JSValue → JSValue
  | .own v => v
  | .inherited name => .builtin name
  | .absent => .undefined

deriving instance DecidableEq for Except

/-- An exception object: its constructor name and its message. -/
structure JSError where
  name : String
  message : String
  deriving DecidableEq, Repr

/-- The error `Object.keys(undefined)` throws. -/
def keysOfUndefinedError : JSError :=
  ⟨"TypeError", "Cannot convert undefined or null to object"⟩

/-- The error a property read on `undefined` throws. -/
def readOfUndefinedError (prop : String) : JSError :=
  ⟨"TypeError", "Cannot read properties of undefined (reading '" ++ prop ++ "')"⟩

/-! ## The analysis result sent by the server -/

/-- Entry of `grouped_data`: the statistics of one officer. -/
structure OfficerData where
  count : Int
  unique_regions : Int
  pipe_size_counts : JSObject Int
  most_common_pipe_size : JSValue
  deriving DecidableEq, Repr

/-- Entry of `region_summary`. -/
structure RegionData where
  count : Int
  top_officer : JSValue
  most_common_pipe_size : JSValue
  deriving DecidableEq, Repr

/-- Entry of `pipe_size_summary`. -/
structure PipeSizeData where
  count : Int
  top_region : JSValue
  top_officer : JSValue
  deriving DecidableEq, Repr

/-- The field `summary_stats.date_range`. -/
structure DateRange where
  start : JSValue
  end_ : JSValue
  deriving DecidableEq, Repr

/-- The field `summary_stats`. -/
structure SummaryStats where
  unique_officers : JSValue
  unique_regions : JSValue
  unique_pipe_sizes : JSValue
  date_range : DateRange
  deriving DecidableEq, Repr

/-- The payload `result.data` of `/upload`, kept in `processedData`. A raw
record is a flat object of values; `summary_stats` is `none` when the payload
lacks the field. -/
structure AnalysisResult where
  total_records : JSValue
  summary_stats : Option SummaryStats
  grouped_data : JSObject OfficerData
  region_summary : JSObject RegionData
  pipe_size_summary : JSObject PipeSizeData
  monthly_trends : JSObject JSValue
  raw_data : List (JSObject JSValue)
  deriving DecidableEq, Repr

/-! ## The page and the application state -/

/-- An element of the page: its text and whether its class list has `hidden`. -/
structure Element where
  textContent : String
  hidden : Bool
  deriving DecidableEq, Repr

/-- The elements the class looks up by id; `none` (or `false` for a canvas)
when `document.getElementById` finds nothing. `officerSelect` holds the
(value, text) pairs of its options and `dataTableContainer` its `innerHTML`. -/
structure Dom where
  fileName : Option Element
  uploadStatus : Option Element
  resultsSection : Option Element
  errorMessage : Option Element
  totalBursts : Option Element
  uniqueOfficers : Option Element
  uniqueRegions : Option Element
  uniquePipeSizes : Option Element
  dateRange : Option Element
  officerSelect : Option (List (String × String))
  officerChart : Bool
  regionalChart : Bool
  pipeSizeChart : Bool
  monthlyTrendsChart : Bool
  officerDetails : Option Element
  officerTotalBursts : Option Element
  officerRegions : Option Element
  officerCommonPipe : Option Element
  dataTableContainer : Option String
  deriving DecidableEq, Repr

/-- A chart instance made by `new Chart(ctx, config)`: its identity and the
type, labels and first dataset of its configuration (colours and options are
constants of the source and are left out). -/
structure Chart where
  id : Nat
  type : String
  labels : List String
  data : List JSValue
  deriving DecidableEq, Repr

/-- The object `this.charts`, with its four possible properties. -/
structure Charts where
  officer : Option Chart
  region : Option Chart
  pipe : Option Chart
  trend : Option Chart
  deriving DecidableEq, Repr

/-- The selected file; only its name is read. -/
structure File where
  name : String
  deriving DecidableEq, Repr

/-- The fields of the `BurstAnalyzer` instance together with what it acts on:
the page, the chart instances that exist (created and not destroyed) and those
destroyed, the console, the timers set, the requests sent and the downloads
started. -/
structure AppState where
  currentFileId : JSValue
  processedData : Option AnalysisResult
  charts : Charts
  dom : Dom
  liveCharts : List Nat
  destroyedCharts : List Nat
  nextChartId : Nat
  consoleErrors : List String
  timers : Nat
  fetches : List (String × File)
  downloads : List (String × String)
  deriving DecidableEq, Repr

/-- How a call ends: the state it leaves and the exception it threw, if any. -/
structure Completion where
  state : AppState
  thrown : Option JSError
  deriving DecidableEq, Repr

/-- A page with none of the elements. -/
def emptyDom : Dom :=
  { fileName := none, uploadStatus := none, resultsSection := none, errorMessage := none,
    totalBursts := none, uniqueOfficers := none, uniqueRegions := none,
    uniquePipeSizes := none, dateRange := none, officerSelect := none,
    officerChart := false, regionalChart := false, pipeSizeChart := false,
    monthlyTrendsChart := false, officerDetails := none, officerTotalBursts := none,
    officerRegions := none, officerCommonPipe := none, dataTableContainer := none }

/-- The state the constructor leaves on a given page. -/
def initialState (dom : Dom) : AppState :=
  { currentFileId := .null, processedData := none, charts := ⟨none, none, none, none⟩,
    dom := dom, liveCharts := [], destroyedCharts := [], nextChartId := 0,
    consoleErrors := [], timers := 0, fetches := [], downloads := [] }

/-- Assignment to `textContent` of an element that may be missing. -/
def setText (e : Option Element) (text : String) : Option Element :=
  e.map (fun el => { el with textContent := text })

/-- The calls `classList.add('hidden')` and `classList.remove('hidden')` on an
element that may be missing. -/
def setHidden (e : Option Element) (hidden : Bool) : Option Element :=
  e.map (fun el => { el with hidden := hidden })

/-- showError: without the `errorMessage` element the message goes to the
console; otherwise it becomes the element's text, the element is shown and a
timer is set that hides it again. -/
def showError (message : String) (s : AppState) : AppState :=
  match s.dom.errorMessage with
  | none => { s with consoleErrors := s.consoleErrors ++ ["Error: " ++ message] }
  | some el =>
    { s with
      dom := { s.dom with errorMessage := some { el with textContent := message, hidden := false } },
      timers := s.timers + 1 }

/-! ## Charts -/

/-- The identities of the chart instances held in `this.charts`, in the order
of `Object.values`. -/
def Charts.ids (c : Charts) : List Nat :=
  (c.officer.toList ++ c.region.toList ++ c.pipe.toList ++ c.trend.toList).map Chart.id

/-- The loop `Object.values(this.charts).forEach(chart => chart.destroy())`
followed by `this.charts = {}`; it opens `renderCharts` and is the whole of
`cleanup`. -/
def destroyCharts (s : AppState) : AppState :=
  { s with
    liveCharts := s.liveCharts.filter (fun i => decide (i ∉ s.charts.ids)),
    destroyedCharts := s.destroyedCharts ++ s.charts.ids,
    charts := ⟨none, none, none, none⟩ }

/-- cleanup: destroy every chart held and empty `this.charts`. -/
def cleanup (s : AppState) : AppState :=
  destroyCharts s

/-- The expression `new Chart(ctx, config)`: a fresh instance comes to exist. -/
def newChart (type : String) (labels : List String) (data : List JSValue)
    (s : AppState) : Chart × AppState :=
  (⟨s.nextChartId, type, labels, data⟩,
   { s with liveCharts := s.liveCharts ++ [s.nextChartId], nextChartId := s.nextChartId + 1 })

/-- The array `topOfficers` of `renderCharts`: the entries of `grouped_data`
sorted with the comparator `(a, b) => b[1].count - a[1].count`, then
`slice(0, 10)`. `Array.prototype.sort` is stable, so its result is the one
stable ordering by decreasing count, which insertion sort computes. -/
def topOfficers (grouped_data : JSObject OfficerData) : List (String × OfficerData) :=
  (grouped_data.insertionSort (fun a b => b.2.count ≤ a.2.count)).take 10

/-- Labels of the officer chart: `topOfficers.map(item => item[0])`. -/
def officerChartLabels (grouped_data : JSObject OfficerData) : List String :=
  (topOfficers grouped_data).map (fun item => item.1)

/-- Data of the officer chart: `topOfficers.map(item => item[1].count)`. -/
def officerChartData (grouped_data : JSObject OfficerData) : List Int :=
  (topOfficers grouped_data).map (fun item => item.2.count)

/-- Lexicographic order of two texts by character code, the order the
comparator-less `sort()` puts strings of the basic plane in. -/
def textLe : List Char → List Char → Bool
  | [], _ => true
  | _ :: _, [] => false
  | a :: as, b :: bs =>
    if a.toNat < b.toNat then true
    else if b.toNat < a.toNat then false
    else textLe as bs

/-- The array `months` of `renderCharts`: `Object.keys(monthlyData).sort()`,
the keys in ascending order of their text. -/
def sortedMonths (monthlyData : JSObject JSValue) : List String :=
  (monthlyData.map (fun item => item.1)).insertionSort (fun a b => textLe a.data b.data = true)

/-- renderCharts: destroy the charts held, then make one chart for each canvas
the page has. -/
def renderCharts (data : AnalysisResult) (s : AppState) : AppState :=
  let s0 := destroyCharts s
  let s1 :=
    if s0.dom.officerChart then
      let r := newChart "bar" (officerChartLabels data.grouped_data)
        ((officerChartData data.grouped_data).map JSValue.num) s0
      { r.2 with charts := { r.2.charts with officer := some r.1 } }
    else s0
  let s2 :=
    if s1.dom.regionalChart then
      let r := newChart "pie" (data.region_summary.map (fun item => item.1))
        (data.region_summary.map (fun item => JSValue.num item.2.count)) s1
      { r.2 with charts := { r.2.charts with region := some r.1 } }
    else s1
  let s3 :=
    if s2.dom.pipeSizeChart then
      let r := newChart "bar" (data.pipe_size_summary.map (fun item => item.1 ++ "mm"))
        (data.pipe_size_summary.map (fun item => JSValue.num item.2.count)) s2
      { r.2 with charts := { r.2.charts with pipe := some r.1 } }
    else s2
  if s3.dom.monthlyTrendsChart then
    let months := sortedMonths data.monthly_trends
    let r := newChart "line" months
      (months.map (fun month => (getProp data.monthly_trends month).toValue)) s3
    { r.2 with charts := { r.2.charts with trend := some r.1 } }
  else s3

/-! ## Showing a result -/

/-- populateOfficerDropdown: the placeholder option, then one option for each
officer; nothing without the `officerSelect` element. -/
def populateOfficerDropdown (officers : List String) (s : AppState) : AppState :=
  match s.dom.officerSelect with
  | none => s
  | some _ =>
    { s with dom := { s.dom with
        officerSelect := some (("", "Choose an officer...") :: officers.map (fun o => (o, o))) } }

/-- The summary lines of `displayResults` that read `data.summary_stats`: each
runs only when its element exists, and the first that runs on a payload
without `summary_stats` throws. -/
def displaySummaryStats (stats : Option SummaryStats) (s : AppState) : Completion :=
  match stats with
  | some st =>
    ⟨{ s with dom := { s.dom with
        uniqueOfficers := setText s.dom.uniqueOfficers st.unique_officers.toStr,
        uniqueRegions := setText s.dom.uniqueRegions st.unique_regions.toStr,
        uniquePipeSizes := setText s.dom.uniquePipeSizes st.unique_pipe_sizes.toStr,
        dateRange := setText s.dom.dateRange
          (st.date_range.start.toStr ++ " to " ++ st.date_range.end_.toStr) } }, none⟩
  | none =>
    if s.dom.uniqueOfficers.isSome then ⟨s, some (readOfUndefinedError "unique_officers")⟩
    else if s.dom.uniqueRegions.isSome then ⟨s, some (readOfUndefinedError "unique_regions")⟩
    else if s.dom.uniquePipeSizes.isSome then ⟨s, some (readOfUndefinedError "unique_pipe_sizes")⟩
    else if s.dom.dateRange.isSome then ⟨s, some (readOfUndefinedError "date_range")⟩
    else ⟨s, none⟩

/-- displayResults: nothing for a missing payload; otherwise the summary
texts, the officer drop-down and the charts. -/
def displayResults (data : Option AnalysisResult) (s : AppState) : Completion :=
  match data with
  | none => ⟨s, none⟩
  | some d =>
    let s1 := { s with dom := { s.dom with
      totalBursts := setText s.dom.totalBursts d.total_records.toStr } }
    match displaySummaryStats d.summary_stats s1 with
    | ⟨s2, some e⟩ => ⟨s2, some e⟩
    | ⟨s2, none⟩ =>
      let s3 := populateOfficerDropdown (d.grouped_data.map (fun item => item.1)) s2
      ⟨renderCharts d s3, none⟩

/-! ## Officer details -/

/-- Text of `officerData.pipe_size_counts[officerData.most_common_pipe_size]`
inside the template literal. -/
def pipeCountText (officerData : OfficerData) : String :=
  match getProp officerData.pipe_size_counts officerData.most_common_pipe_size.toStr with
  | .own n => numToString n
  | .inherited name => builtinToString name
  | .absent => "undefined"

/-- handleOfficerSelect, given `event.target.value`. An empty value hides the
details; a value for which `grouped_data[officerName]` is falsy, or a missing
result, shows the error; otherwise the three texts are written and the details
shown. When the read finds an inherited member instead of an officer, its
`count` and `unique_regions` are `undefined` (an empty text) and the read of
`pipe_size_counts[...]` throws. -/
def handleOfficerSelect (officerName : String) (s : AppState) : Completion :=
  if officerName = "" then
    ⟨{ s with dom := { s.dom with officerDetails := setHidden s.dom.officerDetails true } }, none⟩
  else
    match s.processedData with
    | none => ⟨showError "Officer data not available" s, none⟩
    | some d =>
      match getProp d.grouped_data officerName with
      | .absent => ⟨showError "Officer data not available" s, none⟩
      | .own officerData =>
        let s1 := { s with dom := { s.dom with
          officerTotalBursts := setText s.dom.officerTotalBursts (numToString officerData.count),
          officerRegions := setText s.dom.officerRegions (numToString officerData.unique_regions),
          officerCommonPipe := setText s.dom.officerCommonPipe
            (officerData.most_common_pipe_size.toStr ++ "mm (" ++ pipeCountText officerData
              ++ " bursts)") } }
        ⟨{ s1 with dom := { s1.dom with
            officerDetails := setHidden s1.dom.officerDetails false } }, none⟩
      | .inherited _ =>
        let s1 := { s with dom := { s.dom with
          officerTotalBursts := setText s.dom.officerTotalBursts "",
          officerRegions := setText s.dom.officerRegions "" } }
        if s1.dom.officerCommonPipe.isSome then
          ⟨s1, some (readOfUndefinedError "undefined")⟩
        else
          ⟨{ s1 with dom := { s1.dom with
              officerDetails := setHidden s1.dom.officerDetails false } }, none⟩

/-! ## Tables -/

/-- A run of spaces, the indentation inside the table template. -/
def spaces (n : Nat) : String :=
  String.mk (List.replicate n ' ')

/-- The template literal assigned to `tableHTML`. -/
def tableHTML (headers : List String) (rows : List (List JSValue)) : String :=
  "\n" ++ spaces 12 ++ "<div class=\"overflow-x-auto\">" ++
  "\n" ++ spaces 16 ++ "<table class=\"min-w-full divide-y divide-gray-200\">" ++
  "\n" ++ spaces 20 ++ "<thead class=\"bg-gray-50\">" ++
  "\n" ++ spaces 24 ++ "<tr>" ++
  "\n" ++ spaces 28 ++ String.join (headers.map (fun header =>
    "<th class=\"px-6 py-3 text-left text-xs font-medium text-gray-500 uppercase tracking-wider\">"
      ++ header ++ "</th>")) ++
  "\n" ++ spaces 24 ++ "</tr>" ++
  "\n" ++ spaces 20 ++ "</thead>" ++
  "\n" ++ spaces 20 ++ "<tbody class=\"bg-white divide-y divide-gray-200\">" ++
  "\n" ++ spaces 24 ++ String.join (rows.map (fun row =>
    "\n" ++ spaces 28 ++ "<tr>" ++
    "\n" ++ spaces 32 ++ String.join (row.map (fun cell =>
      "<td class=\"px-6 py-4 whitespace-nowrap text-sm text-gray-500\">" ++ cell.toStr ++ "</td>")) ++
    "\n" ++ spaces 28 ++ "</tr>" ++
    "\n" ++ spaces 24)) ++
  "\n" ++ spaces 20 ++ "</tbody>" ++
  "\n" ++ spaces 16 ++ "</table>" ++
  "\n" ++ spaces 12 ++ "</div>" ++
  "\n" ++ spaces 8

/-- The `switch` of `showTable`: the headers and rows for a table type. The
`raw` case reads `Object.keys(raw_data[0])`, which throws when `raw_data` is
empty; a cell of a raw row is `row[header] || ''`. A type outside the four
cases leaves both lists empty. -/
def tableProjection (type : String) (d : AnalysisResult) :
    Except JSError (List String × List (List JSValue)) :=
  if type = "officers" then
    .ok (["Officer", "Total Bursts", "Regions Worked", "Most Common Pipe"],
      d.grouped_data.map (fun item =>
        [.str item.1, .num item.2.count, .num item.2.unique_regions,
         .str (item.2.most_common_pipe_size.toStr ++ "mm")]))
  else if type = "regions" then
    .ok (["Region", "Total Bursts", "Top Officer", "Most Common Pipe"],
      d.region_summary.map (fun item =>
        [.str item.1, .num item.2.count, item.2.top_officer,
         .str (item.2.most_common_pipe_size.toStr ++ "mm")]))
  else if type = "pipes" then
    .ok (["Pipe Size (mm)", "Total Bursts", "Top Region", "Top Officer"],
      d.pipe_size_summary.map (fun item =>
        [.str item.1, .num item.2.count, item.2.top_region, item.2.top_officer]))
  else if type = "raw" then
    match d.raw_data with
    | [] => .error keysOfUndefinedError
    | first :: _ =>
      let headers := first.map (fun item => item.1)
      .ok (headers, d.raw_data.map (fun row =>
        headers.map (fun header => ((getProp row header).toValue).or (.str ""))))
  else
    .ok ([], [])

/-- showTable: nothing without the container or without a result; otherwise
the table of the given type becomes the container's `innerHTML`. An exception
of the `switch` leaves the function, which has no handler. -/
def showTable (type : String) (s : AppState) : Completion :=
  match s.dom.dataTableContainer, s.processedData with
  | none, _ => ⟨s, none⟩
  | some _, none => ⟨s, none⟩
  | some _, some d =>
    match tableProjection type d with
    | .error e => ⟨s, some e⟩
    | .ok (headers, rows) =>
      ⟨{ s with dom := { s.dom with dataTableContainer := some (tableHTML headers rows) } }, none⟩

/-! ## CSV export -/

/-- The call `replace(/"/g, '""')`: every double quote is doubled. -/
def doubleQuotes (text : String) : String :=
  String.mk (text.data.flatMap (fun c => if c = Char.ofNat 34 then [c, c] else [c]))

/-- One value of a record line: `String(value)` with its quotes doubled,
between double quotes. -/
def csvField (value : JSValue) : String :=
  "\"" ++ doubleQuotes value.toStr ++ "\""

/-- The text `csvContent` for a raw data list with first record `first`: the
keys of the first record joined by commas, then for each record its values,
each as a quoted field, joined by commas; the lines joined by newlines. -/
def csvContent (first : JSObject JSValue) (raw_data : List (JSObject JSValue)) : String :=
  "\n".intercalate
    (",".intercalate (first.map (fun item => item.1)) ::
      raw_data.map (fun row => ",".intercalate (row.map (fun item => csvField item.2))))

/-- The `try` block of `exportToCSV`: `Object.keys(raw_data[0])` throws when
`raw_data` is empty; otherwise the text is built and the download started. -/
def exportTry (today : String) (d : AnalysisResult) (s : AppState) : Except JSError AppState :=
  match d.raw_data with
  | [] => .error keysOfUndefinedError
  | first :: _ =>
    .ok { s with downloads := s.downloads ++
      [("burst_analysis_" ++ today ++ ".csv", csvContent first d.raw_data)] }

/-- exportToCSV, on the day `today` (the text of
`new Date().toISOString().slice(0, 10)`). Without a result it shows an error;
an exception of the `try` block is caught and shown as an error. -/
def exportToCSV (today : String) (s : AppState) : AppState :=
  match s.processedData with
  | none => showError "No data to export" s
  | some d =>
    match exportTry today d s with
    | .ok s1 => s1
    | .error error => showError ("Error exporting to CSV: " ++ error.message) s

/-! ## Upload -/

/-- What the request to `/upload` comes to: `fetch` rejects, the response is
not ok, `response.json()` rejects (or the result cannot be read), or a result
object arrives, with the truthiness of its `success`. -/
inductive FetchOutcome where
  | networkError (message : String) : FetchOutcome
  | httpError (status : Nat) : FetchOutcome
  | badJson (message : String) : FetchOutcome
  | json (success : Bool) (data : Option AnalysisResult) (file_id : JSValue)
      (message : JSValue) : FetchOutcome
  deriving DecidableEq, Repr

/-- The `try` block of `uploadFile` with its `catch`, after the request got
its outcome. -/
def uploadTry (outcome : FetchOutcome) (s : AppState) : AppState :=
  match outcome with
  | .networkError message => showError ("Error uploading file: " ++ message) s
  | .httpError status =>
    showError ("Error uploading file: " ++ ("Server error: " ++ Nat.repr status)) s
  | .badJson message => showError ("Error uploading file: " ++ message) s
  | .json false _ _ message => showError ("Error processing file: " ++ message.toStr) s
  | .json true data file_id _ =>
    let s1 := { s with processedData := data, currentFileId := file_id }
    match displayResults s1.processedData s1 with
    | ⟨s2, some e⟩ => showError ("Error uploading file: " ++ e.message) s2
    | ⟨s2, none⟩ =>
      { s2 with dom := { s2.dom with resultsSection := setHidden s2.dom.resultsSection false } }

/-- uploadFile: show the status, hide results and error, send the file to
`/upload`, handle the outcome, and hide the status at the end. -/
def uploadFile (file : File) (outcome : FetchOutcome) (s : AppState) : AppState :=
  let s1 := { s with
    dom := { s.dom with
      uploadStatus := setHidden s.dom.uploadStatus false,
      resultsSection := setHidden s.dom.resultsSection true,
      errorMessage := setHidden s.dom.errorMessage true },
    fetches := s.fetches ++ [("/upload", file)] }
  let s2 := uploadTry outcome s1
  { s2 with dom := { s2.dom with uploadStatus := setHidden s2.dom.uploadStatus true } }

/-- The test `text.endsWith(suffix)`. -/
def endsWith (text suffix : String) : Bool :=
  suffix.data.isSuffixOf text.data

/-- handleFileSelect, given `event.target.files` and the outcome the upload
request would have. Without a file nothing happens; a name with neither
extension shows the error and returns; otherwise the name is displayed and
`uploadFile` is called with the file. -/
def handleFileSelect (files : List File) (outcome : FetchOutcome) (s : AppState) : AppState :=
  match files with
  | [] => s
  | file :: _ =>
    if !endsWith file.name ".xlsx" && !endsWith file.name ".xls" then
      showError "Please select an Excel file (.xlsx or .xls)" s
    else
      let s1 := { s with dom := { s.dom with
        fileName := s.dom.fileName.map (fun el =>
          { el with textContent := "Selected: " ++ file.name, hidden := false }) } }
      uploadFile file outcome s1

/-! ## Reading CSV back

The export is compared with what a standard CSV reader makes of its text and
with the layout in which every field is quoted. -/

/-- Where a CSV reader is inside a record: in a bare field, inside quotes, or
just after a quote met inside quotes. -/
inductive CsvMode where
  | bare : CsvMode
  | quoted : CsvMode
  | quoteSeen : CsvMode
  deriving DecidableEq, Repr

/-- A standard CSV reader: commas separate fields and newlines separate
records, except inside a quoted field, where two double quotes stand for one.
`field` holds the characters of the field being read and `record` the fields
read so far of the record being read. -/
def csvRead : List Char → CsvMode → List Char → List String → List (List String)
  | [], _, field, record => [record ++ [String.mk field]]
  | c :: rest, .bare, field, record =>
    if c = Char.ofNat 34 then csvRead rest .quoted field record
    else if c = ',' then csvRead rest .bare [] (record ++ [String.mk field])
    else if c = '\n' then (record ++ [String.mk field]) :: csvRead rest .bare [] []
    else csvRead rest .bare (field ++ [c]) record
  | c :: rest, .quoted, field, record =>
    if c = Char.ofNat 34 then csvRead rest .quoteSeen field record
    else csvRead rest .quoted (field ++ [c]) record
  | c :: rest, .quoteSeen, field, record =>
    if c = Char.ofNat 34 then csvRead rest .quoted (field ++ [c]) record
    else if c = ',' then csvRead rest .bare [] (record ++ [String.mk field])
    else if c = '\n' then (record ++ [String.mk field]) :: csvRead rest .bare [] []
    else csvRead rest .bare (field ++ [c]) record

/-- The records a standard CSV reader returns for a text whose first line is
the header: each later line paired, field by field, with the header. -/
def csvRecords (text : String) : List (List (String × String)) :=
  match csvRead text.data .bare [] [] with
  | [] => []
  | header :: lines => lines.map (fun line => header.zip line)

/-- The raw records with every value converted to a string. -/
def stringRecords (raw_data : List (JSObject JSValue)) : List (List (String × String)) :=
  raw_data.map (fun row => row.map (fun item => (item.1, item.2.toStr)))

/-- The CSV layout in which every field, those of the header included, stands
between double quotes with its own quotes doubled. -/
def quotedCsvContent (first : JSObject JSValue) (raw_data : List (JSObject JSValue)) : String :=
  "\n".intercalate
    (",".intercalate (first.map (fun item => csvField (.str item.1))) ::
      raw_data.map (fun row => ",".intercalate (row.map (fun item => csvField item.2))))

/-- A state holding the given result on a page that has every element. -/
def loadedState (d : AnalysisResult) : AppState :=
  { initialState
      { fileName := some ⟨"", true⟩, uploadStatus := some ⟨"", true⟩,
        resultsSection := some ⟨"", false⟩, errorMessage := some ⟨"", true⟩,
        totalBursts := some ⟨"", false⟩, uniqueOfficers := some ⟨"", false⟩,
        uniqueRegions := some ⟨"", false⟩, uniquePipeSizes := some ⟨"", false⟩,
        dateRange := some ⟨"", false⟩, officerSelect := some [],
        officerChart := true, regionalChart := true, pipeSizeChart := true,
        monthlyTrendsChart := true, officerDetails := some ⟨"", true⟩,
        officerTotalBursts := some ⟨"7", false⟩, officerRegions := some ⟨"2", false⟩,
        officerCommonPipe := some ⟨"150mm (3 bursts)", false⟩,
        dataTableContainer := some "" } with
    processedData := some d }

/-! ## Chart bookkeeping -/

/-- The chart bookkeeping is consistent: the chart instances that exist are
the ones held in `this.charts`, and every identity in use is below the next
one to be handed out. -/
def ChartsConsistent (s : AppState) : Prop :=
  s.liveCharts = s.charts.ids ∧
  (∀ i ∈ s.liveCharts, i < s.nextChartId) ∧
  (∀ i ∈ s.destroyedCharts, i < s.nextChartId)

instance (s : AppState) : Decidable (ChartsConsistent s) := by
  unfold ChartsConsistent
  infer_instance

/-- The identities of the chart instances created between two states. -/
def createdCharts (before after : AppState) : List Nat :=
  List.range' before.nextChartId (after.nextChartId - before.nextChartId)

/-- Number of chart canvases the page has. -/
def canvasCount (dom : Dom) : Nat :=
  (if dom.officerChart then 1 else 0) + (if dom.regionalChart then 1 else 0) +
  (if dom.pipeSizeChart then 1 else 0) + (if dom.monthlyTrendsChart then 1 else 0)

/-! ## Sample data -/

/-- A result with the single officer Alice and one raw record. -/
def aliceResult : AnalysisResult :=
  { total_records := .num 1, summary_stats := none,
    grouped_data := [("Alice", ⟨1, 1, [("100", 1)], .str "100"⟩)],
    region_summary := [], pipe_size_summary := [], monthly_trends := [],
    raw_data := [[("region", .str "North"), ("pipe", .str "100")]] }


/-- Eleven officers with counts 1 to 11, in increasing order of count. -/
def elevenOfficers : JSObject OfficerData :=
  (List.range 11).map (fun i =>
    ("officer" ++ Nat.repr i, ⟨(i : Int) + 1, 1, [], .str "100"⟩))

/-- A payload without `summary_stats`: two records of the officer Bob. -/
def partialResult : AnalysisResult :=
  { total_records := .num 2, summary_stats := none,
    grouped_data := [("Bob", ⟨2, 1, [("150", 2)], .str "150"⟩)],
    region_summary := [], pipe_size_summary := [], monthly_trends := [],
    raw_data := [[("region", .str "South"), ("pipe", .str "150")],
      [("region", .str "South"), ("pipe", .str "150")]] }

/-! ## Properties -/

/-- The comparator order of `topOfficers` is total. -/
instance countOrderTotal :
    IsTotal (String × OfficerData) (fun a b => b.2.count ≤ a.2.count) :=
  ⟨fun a b => le_total b.2.count a.2.count⟩

/-- The comparator order of `topOfficers` is transitive. -/
instance countOrderTrans :
    IsTrans (String × OfficerData) (fun a b => b.2.count ≤ a.2.count) :=
  ⟨fun _ _ _ hab hbc => le_trans hbc hab⟩

/-- C1: with a table container and a result, `showTable('officers')` writes the
table with the four officer headers and one row per entry of `grouped_data`,
in the order of the entries; the row of entry `i` is its key, its count, its
number of regions and its most common pipe size followed by `mm`. For the
grouped data with the single officer Alice the only row is
`["Alice", 1, 1, "100mm"]`. -/
theorem showTable_officers_rows (s : AppState) (d : AnalysisResult) (html : String)
    (hc : s.dom.dataTableContainer = some html) (hd : s.processedData = some d) :
    ∃ rows : List (List JSValue),
      tableProjection "officers" d =
        .ok (["Officer", "Total Bursts", "Regions Worked", "Most Common Pipe"], rows) ∧
      showTable "officers" s =
        ⟨{ s with dom := { s.dom with
            dataTableContainer := some
              (tableHTML ["Officer", "Total Bursts", "Regions Worked", "Most Common Pipe"]
                rows) } }, none⟩ ∧
      rows.length = d.grouped_data.length ∧
      (∀ (i : Nat) (k : String) (v : OfficerData), d.grouped_data[i]? = some (k, v) →
        rows[i]? = some [.str k, .num v.count, .num v.unique_regions,
          .str (v.most_common_pipe_size.toStr ++ "mm")]) ∧
      (d.grouped_data = [("Alice", ⟨1, 1, [("100", 1)], .str "100"⟩)] →
        rows = [[.str "Alice", .num 1, .num 1, .str "100mm"]]) := by
  refine ⟨d.grouped_data.map (fun item =>
    [.str item.1, .num item.2.count, .num item.2.unique_regions,
     .str (item.2.most_common_pipe_size.toStr ++ "mm")]), ?_, ?_, ?_, ?_, ?_⟩
  · simp [tableProjection]
  · simp [showTable, hc, hd, tableProjection]
  · simp
  · intro i k v h
    simp [List.getElem?_map, h]
  · intro h
    rw [h]
    decide

/-- Witness of C1: the state holding the Alice result on a page with a table
container. -/
theorem showTable_officers_rows_witness :
    ∃ rows : List (List JSValue),
      tableProjection "officers" aliceResult =
        .ok (["Officer", "Total Bursts", "Regions Worked", "Most Common Pipe"], rows) ∧
      rows = [[.str "Alice", .num 1, .num 1, .str "100mm"]] := by
  obtain ⟨rows, h1, _, _, _, h5⟩ := showTable_officers_rows
    { initialState { emptyDom with dataTableContainer := some "" } with
      processedData := some aliceResult } aliceResult "" rfl rfl
  exact ⟨rows, h1, h5 rfl⟩

/-- C2: the officer chart has `min(10, n)` labels and as many data points; each
(label, data) pair is the (officer, count) of an entry of `grouped_data`; the
data are in non-increasing order; the entries shown together with some list of
the entries left out make up `grouped_data`, and no entry left out has a count
above that of an entry shown. With an officer canvas, `renderCharts` makes the
officer chart with these labels and data. -/
theorem topOfficers_spec (grouped_data : JSObject OfficerData) :
    (officerChartLabels grouped_data).length = min 10 grouped_data.length ∧
    (officerChartData grouped_data).length = min 10 grouped_data.length ∧
    (∀ p ∈ (officerChartLabels grouped_data).zip (officerChartData grouped_data),
      ∃ e ∈ grouped_data, e.1 = p.1 ∧ e.2.count = p.2) ∧
    (officerChartData grouped_data).Pairwise (fun x y => y ≤ x) ∧
    (∃ rest : List (String × OfficerData),
      grouped_data.Perm (topOfficers grouped_data ++ rest) ∧
      ∀ e ∈ rest, ∀ k ∈ topOfficers grouped_data, e.2.count ≤ k.2.count) ∧
    (∀ (s : AppState) (d : AnalysisResult), d.grouped_data = grouped_data →
      ((renderCharts d { s with dom := { s.dom with officerChart := true } }).charts.officer.map
        (fun c => (c.labels, c.data))) =
      some (officerChartLabels grouped_data,
        (officerChartData grouped_data).map JSValue.num)) := by
  have hperm := List.perm_insertionSort (fun a b : String × OfficerData => b.2.count ≤ a.2.count)
    grouped_data
  have hsorted := List.sorted_insertionSort
    (fun a b : String × OfficerData => b.2.count ≤ a.2.count) grouped_data
  refine ⟨?_, ?_, ?_, ?_, ?_, ?_⟩
  · simp [officerChartLabels, topOfficers, List.length_take, hperm.length_eq]
  · simp [officerChartData, topOfficers, List.length_take, hperm.length_eq]
  · intro p hp
    rw [officerChartLabels, officerChartData, List.zip_map', List.mem_map] at hp
    obtain ⟨e, he, rfl⟩ := hp
    exact ⟨e, hperm.subset (List.mem_of_mem_take he), rfl, rfl⟩
  · rw [officerChartData, List.pairwise_map]
    exact List.Pairwise.sublist (List.take_sublist _ _) hsorted
  · refine ⟨(grouped_data.insertionSort (fun a b => b.2.count ≤ a.2.count)).drop 10, ?_, ?_⟩
    · rw [topOfficers, List.take_append_drop]
      exact hperm.symm
    · intro e he k hk
      exact hsorted.rel_of_mem_take_of_mem_drop hk he
  · intro s d hd
    subst hd
    cases h2 : s.dom.regionalChart <;> cases h3 : s.dom.pipeSizeChart <;>
      cases h4 : s.dom.monthlyTrendsChart <;>
      simp [renderCharts, destroyCharts, newChart, h2, h3, h4]

/-- Witness of C2: of eleven officers with counts 1 to 11 the chart keeps the
ten with the highest counts, highest first. -/
theorem topOfficers_spec_witness :
    officerChartData elevenOfficers = [11, 10, 9, 8, 7, 6, 5, 4, 3, 2] ∧
    (officerChartLabels elevenOfficers).length = min 10 elevenOfficers.length :=
  ⟨by decide, (topOfficers_spec elevenOfficers).1⟩

/-- The CSV text of the raw data of the Alice result. -/
theorem csvContent_sample :
    csvContent [("region", .str "North"), ("pipe", .str "100")] aliceResult.raw_data =
      "region,pipe\n\"North\",\"100\"" := by
  decide

/-- C3: the round trip fails on the raw record list
`[{"Region, Zone": "North"}]`: the exported text is `Region, Zone`, newline,
`"North"`, which a CSV reader takes for a header of two fields, so the record
read back has the field `Region` where the original has `Region, Zone`. On the
sample record `{"region": "North", "pipe": "100"}` the same reader returns the
original. -/
theorem exportToCSV_roundtrip_fails :
    csvContent [("Region, Zone", .str "North")] [[("Region, Zone", .str "North")]] =
      "Region, Zone\n\"North\"" ∧
    csvRecords (csvContent [("Region, Zone", .str "North")] [[("Region, Zone", .str "North")]]) =
      [[("Region", "North")]] ∧
    csvRecords (csvContent [("Region, Zone", .str "North")] [[("Region, Zone", .str "North")]]) ≠
      stringRecords [[("Region, Zone", .str "North")]] ∧
    csvRecords (csvContent [("region", .str "North"), ("pipe", .str "100")]
        [[("region", .str "North"), ("pipe", .str "100")]]) =
      stringRecords [[("region", .str "North"), ("pipe", .str "100")]] := by
  decide

/-- C4: on the raw record list `[{"Pipe Size, mm": 100}]` the text downloaded
by `exportToCSV` starts with the bare header `Pipe Size, mm`; the value line
is quoted, the header line is not, so the text differs from the layout with
every field quoted. -/
theorem exportToCSV_header_unquoted :
    (exportToCSV "2024-05-01"
        (loadedState { aliceResult with raw_data := [[("Pipe Size, mm", .num 100)]] })).downloads =
      [("burst_analysis_2024-05-01.csv", "Pipe Size, mm\n\"100\"")] ∧
    quotedCsvContent [("Pipe Size, mm", .num 100)] [[("Pipe Size, mm", .num 100)]] =
      "\"Pipe Size, mm\"\n\"100\"" ∧
    csvContent [("Pipe Size, mm", .num 100)] [[("Pipe Size, mm", .num 100)]] ≠
      quotedCsvContent [("Pipe Size, mm", .num 100)] [[("Pipe Size, mm", .num 100)]] := by
  decide

/-- With a container and a result whose `raw_data` is empty, `showTable('raw')`
ends by throwing the `TypeError` of `Object.keys(undefined)`, the state as it
was. -/
theorem showTable_raw_empty (s : AppState) (d : AnalysisResult) (html : String)
    (hc : s.dom.dataTableContainer = some html) (hd : s.processedData = some d)
    (hraw : d.raw_data = []) :
    showTable "raw" s = ⟨s, some keysOfUndefinedError⟩ := by
  simp [showTable, hc, hd, tableProjection, hraw]

/-- C5: on a page with a table container and a result whose `raw_data` is
empty, `showTable('raw')` throws a `TypeError` that nothing catches: no error
is shown and no table is written, while `exportToCSV` in the same state shows
its error. -/
theorem showTable_raw_empty_throws :
    showTable "raw" (loadedState { aliceResult with raw_data := [] }) =
      ⟨loadedState { aliceResult with raw_data := [] },
        some ⟨"TypeError", "Cannot convert undefined or null to object"⟩⟩ ∧
    exportToCSV "2024-05-01" (loadedState { aliceResult with raw_data := [] }) =
      showError "Error exporting to CSV: Cannot convert undefined or null to object"
        (loadedState { aliceResult with raw_data := [] }) :=
  ⟨showTable_raw_empty _ _ "" rfl rfl rfl, by decide⟩

/-- C6: with a result whose `raw_data` is empty, the `try` block of
`exportToCSV` throws, and `exportToCSV` ends as `showError` does on the message
built from the exception: the message becomes the visible text of the error
element, or goes to the console when the page has no such element; no download
is started and the result and the file id stay as they were. -/
theorem exportToCSV_empty_raw (today : String) (s : AppState) (d : AnalysisResult)
    (hd : s.processedData = some d) (hraw : d.raw_data = []) :
    exportTry today d s = .error keysOfUndefinedError ∧
    exportToCSV today s =
      showError ("Error exporting to CSV: " ++ keysOfUndefinedError.message) s ∧
    (exportToCSV today s).downloads = s.downloads ∧
    (exportToCSV today s).processedData = s.processedData ∧
    (exportToCSV today s).currentFileId = s.currentFileId ∧
    (∀ el, s.dom.errorMessage = some el →
      (exportToCSV today s).dom.errorMessage =
        some ⟨"Error exporting to CSV: " ++ keysOfUndefinedError.message, false⟩) ∧
    (s.dom.errorMessage = none →
      (exportToCSV today s).consoleErrors = s.consoleErrors ++
        ["Error: " ++ ("Error exporting to CSV: " ++ keysOfUndefinedError.message)]) := by
  have htry : exportTry today d s = .error keysOfUndefinedError := by
    simp [exportTry, hraw]
  have hexp : exportToCSV today s =
      showError ("Error exporting to CSV: " ++ keysOfUndefinedError.message) s := by
    simp [exportToCSV, hd, htry]
  refine ⟨htry, hexp, ?_, ?_, ?_, ?_, ?_⟩
  · rw [hexp, showError]; split <;> rfl
  · rw [hexp, showError]; split <;> rfl
  · rw [hexp, showError]; split <;> rfl
  · intro el hel
    rw [hexp, showError, hel]
  · intro hnone
    rw [hexp, showError, hnone]

/-- Witness of C6: the loaded page with an empty `raw_data`. -/
theorem exportToCSV_empty_raw_witness :
    (exportToCSV "2024-05-01" (loadedState { aliceResult with raw_data := [] })).downloads = [] ∧
    (exportToCSV "2024-05-01" (loadedState { aliceResult with raw_data := [] })).dom.errorMessage =
      some ⟨"Error exporting to CSV: Cannot convert undefined or null to object", false⟩ :=
  ⟨(exportToCSV_empty_raw "2024-05-01" (loadedState { aliceResult with raw_data := [] })
      { aliceResult with raw_data := [] } rfl rfl).2.2.1,
   (exportToCSV_empty_raw "2024-05-01" (loadedState { aliceResult with raw_data := [] })
      { aliceResult with raw_data := [] } rfl rfl).2.2.2.2.2.1 ⟨"", true⟩ rfl⟩

/-- C7: on the raw record list `[{"leaks": 0, "fixed": false, "zone": "N"}]`
the raw table has the record's keys as headers, and the cells under `leaks`
and `fixed`, fields the record has with the values `0` and `false`, are empty
strings; the CSV export of the same record writes `0` and `false`. -/
theorem showTable_raw_blanks_falsy :
    tableProjection "raw"
        { aliceResult with
          raw_data := [[("leaks", .num 0), ("fixed", .bool false), ("zone", .str "N")]] } =
      .ok (["leaks", "fixed", "zone"], [[.str "", .str "", .str "N"]]) ∧
    csvContent [("leaks", .num 0), ("fixed", .bool false), ("zone", .str "N")]
        [[("leaks", .num 0), ("fixed", .bool false), ("zone", .str "N")]] =
      "leaks,fixed,zone\n\"0\",\"false\",\"N\"" := by
  decide

/-- showError leaves the result, the file id and the requests as they were. -/
theorem showError_frame (message : String) (s : AppState) :
    (showError message s).processedData = s.processedData ∧
    (showError message s).currentFileId = s.currentFileId ∧
    (showError message s).fetches = s.fetches := by
  unfold showError
  split <;> exact ⟨rfl, rfl, rfl⟩

/-- What `renderCharts` leaves: the charts held before are destroyed, one
chart is created for each canvas, with consecutive fresh identities, and these
are the charts held afterwards; the page, the requests, the result and the
file id are untouched. -/
theorem renderCharts_effect (d : AnalysisResult) (s : AppState) :
    (renderCharts d s).liveCharts =
      s.liveCharts.filter (fun i => decide (i ∉ s.charts.ids)) ++
        List.range' s.nextChartId (canvasCount s.dom) ∧
    (renderCharts d s).charts.ids = List.range' s.nextChartId (canvasCount s.dom) ∧
    (renderCharts d s).destroyedCharts = s.destroyedCharts ++ s.charts.ids ∧
    (renderCharts d s).nextChartId = s.nextChartId + canvasCount s.dom ∧
    (renderCharts d s).dom = s.dom ∧
    (renderCharts d s).fetches = s.fetches ∧
    (renderCharts d s).processedData = s.processedData ∧
    (renderCharts d s).currentFileId = s.currentFileId := by
  cases h1 : s.dom.officerChart <;> cases h2 : s.dom.regionalChart <;>
    cases h3 : s.dom.pipeSizeChart <;> cases h4 : s.dom.monthlyTrendsChart <;>
    simp [renderCharts, destroyCharts, newChart, Charts.ids, canvasCount, h1, h2, h3, h4,
      List.range']

/-- The officer drop-down is the only thing `populateOfficerDropdown` writes. -/
theorem populateOfficerDropdown_frame (officers : List String) (s : AppState) :
    (populateOfficerDropdown officers s).fetches = s.fetches := by
  unfold populateOfficerDropdown
  split <;> rfl

/-- The summary texts are the only thing `displaySummaryStats` writes. -/
theorem displaySummaryStats_frame (stats : Option SummaryStats) (s : AppState) :
    (displaySummaryStats stats s).state.fetches = s.fetches := by
  unfold displaySummaryStats
  cases stats with
  | some st => rfl
  | none =>
    simp only []
    split_ifs <;> rfl

/-- No request is sent by `displayResults`. -/
theorem displayResults_fetches (data : Option AnalysisResult) (s : AppState) :
    (displayResults data s).state.fetches = s.fetches := by
  cases data with
  | none => rfl
  | some d =>
    simp only [displayResults]
    have h := displaySummaryStats_frame d.summary_stats
      { s with dom := { s.dom with
        totalBursts := setText s.dom.totalBursts d.total_records.toStr } }
    split
    · next s2 e heq => rw [heq] at h; exact h
    · next s2 heq =>
      rw [heq] at h
      simp only [(renderCharts_effect d _).2.2.2.2.2.1, populateOfficerDropdown_frame]
      exact h

/-- The `try` block of `uploadFile` and its handler send no request. -/
theorem uploadTry_fetches (outcome : FetchOutcome) (s : AppState) :
    (uploadTry outcome s).fetches = s.fetches := by
  cases outcome with
  | networkError message => exact (showError_frame _ s).2.2
  | httpError status => exact (showError_frame _ s).2.2
  | badJson message => exact (showError_frame _ s).2.2
  | json success data file_id message =>
    cases success with
    | false => exact (showError_frame _ s).2.2
    | true =>
      simp only [uploadTry]
      have h := displayResults_fetches data { s with processedData := data, currentFileId := file_id }
      split
      · next s2 e heq => rw [heq] at h; rw [(showError_frame _ s2).2.2]; exact h
      · next s2 heq => rw [heq] at h; exact h

/-- One request, for the file, is what `uploadFile` sends. -/
theorem uploadFile_fetches (file : File) (outcome : FetchOutcome) (s : AppState) :
    (uploadFile file outcome s).fetches = s.fetches ++ [("/upload", file)] := by
  simp only [uploadFile, uploadTry_fetches]

/-- The cell `row[header] || ''` of the raw table: the value of an own field
when that value is truthy, the empty string when the value is falsy, and the
empty string for a header that is neither an own field nor an inherited name. -/
theorem rawCell_cases (row : JSObject JSValue) (header : String) :
    (∀ v, ownProp row header = some v → v.truthy = true →
      ((getProp row header).toValue).or (.str "") = v) ∧
    (∀ v, ownProp row header = some v → v.truthy = false →
      ((getProp row header).toValue).or (.str "") = .str "") ∧
    (ownProp row header = none → header ∉ objectPrototypeKeys →
      ((getProp row header).toValue).or (.str "") = .str "") := by
  refine ⟨?_, ?_, ?_⟩
  · intro v hv ht
    simp [getProp, hv, PropRead.toValue, JSValue.or, ht]
  · intro v hv ht
    simp [getProp, hv, PropRead.toValue, JSValue.or, ht]
  · intro hv hp
    simp [getProp, hv, hp, PropRead.toValue, JSValue.or, JSValue.truthy]

/-- A text ends with a suffix exactly when it is some text followed by it. -/
theorem endsWith_iff (text suffix : String) :
    endsWith text suffix = true ↔ ∃ stem : String, text = stem ++ suffix := by
  unfold endsWith
  rw [List.isSuffixOf_iff_suffix]
  constructor
  · rintro ⟨l, hl⟩
    exact ⟨⟨l⟩, String.ext (by simp [hl])⟩
  · rintro ⟨stem, rfl⟩
    exact ⟨stem.data, by simp⟩

/-- C9: for a selected file whose name ends neither in `.xlsx` nor in `.xls`,
`handleFileSelect` ends as `showError` does on the file type message, whatever
the upload would have come to: no request is sent and the result and the file
id stay as they were. For a name that ends in `.xlsx` or `.xls` it ends as
`uploadFile` called with that file does, after the name is displayed, and the
request for the file has been sent. -/
theorem handleFileSelect_validates (file : File) (others : List File)
    (outcome : FetchOutcome) (s : AppState) :
    ((¬ ∃ stem : String, file.name = stem ++ ".xlsx") →
      (¬ ∃ stem : String, file.name = stem ++ ".xls") →
      handleFileSelect (file :: others) outcome s =
        showError "Please select an Excel file (.xlsx or .xls)" s ∧
      (handleFileSelect (file :: others) outcome s).fetches = s.fetches ∧
      (handleFileSelect (file :: others) outcome s).processedData = s.processedData ∧
      (handleFileSelect (file :: others) outcome s).currentFileId = s.currentFileId) ∧
    (((∃ stem : String, file.name = stem ++ ".xlsx") ∨
        (∃ stem : String, file.name = stem ++ ".xls")) →
      handleFileSelect (file :: others) outcome s =
        uploadFile file outcome { s with dom := { s.dom with
          fileName := s.dom.fileName.map (fun el =>
            { el with textContent := "Selected: " ++ file.name, hidden := false }) } } ∧
      (handleFileSelect (file :: others) outcome s).fetches =
        s.fetches ++ [("/upload", file)]) := by
  constructor
  · intro h1 h2
    have e1 : endsWith file.name ".xlsx" = false := by
      rw [← Bool.not_eq_true, endsWith_iff]; exact h1
    have e2 : endsWith file.name ".xls" = false := by
      rw [← Bool.not_eq_true, endsWith_iff]; exact h2
    have h : handleFileSelect (file :: others) outcome s =
        showError "Please select an Excel file (.xlsx or .xls)" s := by
      simp [handleFileSelect, e1, e2]
    rw [h]
    exact ⟨rfl, (showError_frame _ s).2.2, (showError_frame _ s).1, (showError_frame _ s).2.1⟩
  · intro h
    have e : (!endsWith file.name ".xlsx" && !endsWith file.name ".xls") = false := by
      rcases h with h | h
      · rw [(endsWith_iff _ _).mpr h]; rfl
      · rw [(endsWith_iff file.name ".xls").mpr h]; simp
    have h : handleFileSelect (file :: others) outcome s =
        uploadFile file outcome { s with dom := { s.dom with
          fileName := s.dom.fileName.map (fun el =>
            { el with textContent := "Selected: " ++ file.name, hidden := false }) } } := by
      simp only [handleFileSelect, e]
      rfl
    rw [h]
    exact ⟨rfl, uploadFile_fetches _ _ _⟩

/-- Witness of C9: a text file is refused and a workbook is sent. -/
theorem handleFileSelect_validates_witness :
    handleFileSelect [⟨"notes.txt"⟩] (.networkError "offline") (loadedState aliceResult) =
      showError "Please select an Excel file (.xlsx or .xls)" (loadedState aliceResult) ∧
    (handleFileSelect [⟨"bursts.xlsx"⟩] (.networkError "offline")
      (loadedState aliceResult)).fetches = [("/upload", ⟨"bursts.xlsx"⟩)] :=
  ⟨((handleFileSelect_validates ⟨"notes.txt"⟩ [] (.networkError "offline")
      (loadedState aliceResult)).1
      (fun h => absurd ((endsWith_iff "notes.txt" ".xlsx").mpr h) (by decide))
      (fun h => absurd ((endsWith_iff "notes.txt" ".xls").mpr h) (by decide))).1,
   ((handleFileSelect_validates ⟨"bursts.xlsx"⟩ [] (.networkError "offline")
      (loadedState aliceResult)).2 (Or.inl ⟨"bursts", by decide⟩)).2⟩

/-- For a name that is not empty, is no key of `grouped_data` and is no name
inherited from `Object.prototype`, and for any name that is not empty when no
result is loaded, `handleOfficerSelect` ends as `showError` does on
`Officer data not available`, and the officer details stay as they were. -/
theorem handleOfficerSelect_unknown (officerName : String) (s : AppState)
    (hname : officerName ≠ "")
    (hunknown : s.processedData = none ∨
      ∃ d, s.processedData = some d ∧ ownProp d.grouped_data officerName = none ∧
        officerName ∉ objectPrototypeKeys) :
    handleOfficerSelect officerName s = ⟨showError "Officer data not available" s, none⟩ ∧
    (handleOfficerSelect officerName s).state.dom.officerTotalBursts = s.dom.officerTotalBursts ∧
    (handleOfficerSelect officerName s).state.dom.officerRegions = s.dom.officerRegions ∧
    (handleOfficerSelect officerName s).state.dom.officerCommonPipe = s.dom.officerCommonPipe ∧
    (handleOfficerSelect officerName s).state.dom.officerDetails = s.dom.officerDetails := by
  have h : handleOfficerSelect officerName s =
      ⟨showError "Officer data not available" s, none⟩ := by
    rcases hunknown with hnone | ⟨d, hd, hown, hproto⟩
    · simp [handleOfficerSelect, hname, hnone]
    · simp [handleOfficerSelect, hname, hd, getProp, hown, hproto]
  rw [h]
  refine ⟨rfl, ?_, ?_, ?_, ?_⟩ <;> (simp only [showError]; split <;> rfl)

/-- C8: with the Alice result loaded and the details showing another officer,
`handleOfficerSelect` on the name `constructor`, which is no key of
`grouped_data`, finds the inherited member `Object.prototype.constructor`,
shows no error, blanks the total bursts and regions texts and throws on the
read of `pipe_size_counts[...]`. On the name `Bob` it shows the error and
leaves the details as they were. -/
theorem handleOfficerSelect_inherited_name :
    ownProp aliceResult.grouped_data "constructor" = none ∧
    getProp aliceResult.grouped_data "constructor" = .inherited "constructor" ∧
    handleOfficerSelect "constructor" (loadedState aliceResult) =
      ⟨{ loadedState aliceResult with dom := { (loadedState aliceResult).dom with
          officerTotalBursts := some ⟨"", false⟩, officerRegions := some ⟨"", false⟩ } },
        some ⟨"TypeError", "Cannot read properties of undefined (reading 'undefined')"⟩⟩ ∧
    handleOfficerSelect "constructor" (loadedState aliceResult) ≠
      ⟨showError "Officer data not available" (loadedState aliceResult), none⟩ ∧
    (loadedState aliceResult).dom.officerTotalBursts = some ⟨"7", false⟩ ∧
    (handleOfficerSelect "constructor" (loadedState aliceResult)).state.dom.officerTotalBursts =
      some ⟨"", false⟩ ∧
    handleOfficerSelect "Bob" (loadedState aliceResult) =
      ⟨showError "Officer data not available" (loadedState aliceResult), none⟩ := by
  decide

/-- Destroying the charts held leaves no chart when the bookkeeping is
consistent. -/
theorem filter_not_mem_self (l : List Nat) :
    l.filter (fun i => decide (i ∉ l)) = [] := by
  rw [List.filter_eq_nil_iff]
  intro a ha
  simp [ha]

/-- C10: from a state with consistent chart bookkeeping, after `renderCharts`
is called twice the chart instances that exist are exactly those the second
call created; they are the ones held in `this.charts`, one per slot at most,
all distinct; every instance the first call created, and every instance that
existed before, is destroyed and exists no more; the bookkeeping is consistent
again. `cleanup` on a state that holds no chart changes nothing. -/
theorem renderCharts_twice (s : AppState) (d1 d2 : AnalysisResult)
    (h : ChartsConsistent s) :
    (renderCharts d2 (renderCharts d1 s)).liveCharts =
      createdCharts (renderCharts d1 s) (renderCharts d2 (renderCharts d1 s)) ∧
    (renderCharts d2 (renderCharts d1 s)).charts.ids =
      (renderCharts d2 (renderCharts d1 s)).liveCharts ∧
    (renderCharts d2 (renderCharts d1 s)).liveCharts.Nodup ∧
    (renderCharts d2 (renderCharts d1 s)).liveCharts.length = canvasCount s.dom ∧
    (renderCharts d1 s).liveCharts = createdCharts s (renderCharts d1 s) ∧
    (∀ i ∈ createdCharts s (renderCharts d1 s),
      i ∈ (renderCharts d2 (renderCharts d1 s)).destroyedCharts ∧
      i ∉ (renderCharts d2 (renderCharts d1 s)).liveCharts) ∧
    (∀ i ∈ s.liveCharts,
      i ∈ (renderCharts d2 (renderCharts d1 s)).destroyedCharts ∧
      i ∉ (renderCharts d2 (renderCharts d1 s)).liveCharts) ∧
    ChartsConsistent (renderCharts d2 (renderCharts d1 s)) ∧
    (∀ t : AppState, t.charts = ⟨none, none, none, none⟩ → cleanup t = t) := by
  obtain ⟨hlive, hbelow, hdead⟩ := h
  obtain ⟨a1, a2, a3, a4, a5, -⟩ := renderCharts_effect d1 s
  obtain ⟨b1, b2, b3, b4, b5, -⟩ := renderCharts_effect d2 (renderCharts d1 s)
  have hA : (renderCharts d1 s).liveCharts = List.range' s.nextChartId (canvasCount s.dom) := by
    rw [a1, hlive, filter_not_mem_self, List.nil_append]
  have hB : (renderCharts d2 (renderCharts d1 s)).liveCharts =
      List.range' (s.nextChartId + canvasCount s.dom) (canvasCount s.dom) := by
    rw [b1, hA, a2, filter_not_mem_self, List.nil_append, a4, a5]
  have hBd : (renderCharts d2 (renderCharts d1 s)).destroyedCharts =
      s.destroyedCharts ++ s.charts.ids ++ List.range' s.nextChartId (canvasCount s.dom) := by
    rw [b3, a3, a2]
  have hBn : (renderCharts d2 (renderCharts d1 s)).nextChartId =
      s.nextChartId + canvasCount s.dom + canvasCount s.dom := by
    rw [b4, a4, a5]
  refine ⟨?_, ?_, ?_, ?_, ?_, ?_, ?_, ?_, ?_⟩
  · rw [hB, createdCharts, hBn, a4]
    congr 1
    omega
  · rw [b2, hB, a4, a5]
  · rw [hB]
    exact List.nodup_range' _ _
  · rw [hB, List.length_range']
  · rw [hA, createdCharts, a4]
    congr 1
    omega
  · intro i hi
    rw [createdCharts, a4, List.mem_range'_1] at hi
    rw [hBd, hB, List.mem_range'_1]
    refine ⟨?_, by omega⟩
    exact List.mem_append_right _ (List.mem_range'_1.mpr (by omega))
  · intro i hi
    have hlt := hbelow i hi
    rw [hBd, hB, List.mem_range'_1]
    refine ⟨?_, by omega⟩
    rw [← hlive]
    exact List.mem_append_left _ (List.mem_append_right _ hi)
  · refine ⟨?_, ?_, ?_⟩
    · rw [b2, hB, a4, a5]
    · intro i hi
      rw [hB, List.mem_range'_1] at hi
      rw [hBn]
      omega
    · intro i hi
      rw [hBd] at hi
      rw [hBn]
      simp only [List.mem_append, List.mem_range'_1] at hi
      rcases hi with (hi | hi) | hi
      · have := hdead i hi
        omega
      · have := hbelow i (hlive ▸ hi)
        omega
      · omega
  · intro t ht
    cases t
    simp only [cleanup, destroyCharts, Charts.ids] at *
    subst ht
    simp

/-- Witness of C10: two renderings on the full page, from the initial
bookkeeping. -/
theorem renderCharts_twice_witness :
    (renderCharts aliceResult (renderCharts aliceResult (loadedState aliceResult))).liveCharts =
      [4, 5, 6, 7] ∧
    (renderCharts aliceResult (renderCharts aliceResult (loadedState aliceResult))).destroyedCharts =
      [0, 1, 2, 3] ∧
    (renderCharts aliceResult (renderCharts aliceResult (loadedState aliceResult))).liveCharts =
      createdCharts (renderCharts aliceResult (loadedState aliceResult))
        (renderCharts aliceResult (renderCharts aliceResult (loadedState aliceResult))) :=
  ⟨by decide, by decide,
   (renderCharts_twice (loadedState aliceResult) aliceResult aliceResult (by decide)).1⟩

/-- The constructor leaves consistent chart bookkeeping. -/
theorem initialState_consistent (dom : Dom) : ChartsConsistent (initialState dom) := by
  simp [ChartsConsistent, initialState, Charts.ids]

/-- Consistent chart bookkeeping is kept by `renderCharts`. -/
theorem renderCharts_consistent (d : AnalysisResult) (s : AppState)
    (h : ChartsConsistent s) : ChartsConsistent (renderCharts d s) := by
  obtain ⟨hlive, hbelow, hdead⟩ := h
  obtain ⟨a1, a2, a3, a4, -⟩ := renderCharts_effect d s
  refine ⟨?_, ?_, ?_⟩
  · rw [a1, a2, hlive, filter_not_mem_self, List.nil_append]
  · intro i hi
    rw [a1, hlive, filter_not_mem_self, List.nil_append, List.mem_range'_1] at hi
    rw [a4]
    omega
  · intro i hi
    rw [a3, List.mem_append] at hi
    rw [a4]
    rcases hi with hi | hi
    · have := hdead i hi
      omega
    · have := hbelow i (hlive ▸ hi)
      omega

/-- Consistent chart bookkeeping is kept by `cleanup`, which leaves no chart. -/
theorem cleanup_consistent (s : AppState) (h : ChartsConsistent s) :
    ChartsConsistent (cleanup s) ∧ (cleanup s).liveCharts = [] := by
  obtain ⟨hlive, hbelow, hdead⟩ := h
  have hl : (cleanup s).liveCharts = [] := by
    simp only [cleanup, destroyCharts]
    rw [hlive, filter_not_mem_self]
  refine ⟨⟨?_, ?_, ?_⟩, hl⟩
  · rw [hl]; rfl
  · rw [hl]; intro i hi; cases hi
  · intro i hi
    simp only [cleanup, destroyCharts, List.mem_append] at hi ⊢
    rcases hi with hi | hi
    · exact hdead i hi
    · exact hbelow i (hlive ▸ hi)

/-- An upload that fails before the payload is accepted (the request is
rejected, the status is not ok, the body cannot be read, or `success` is
false) leaves the result and the file id as they were. -/
theorem uploadFile_rejected_frame (file : File) (s : AppState) :
    (∀ message, (uploadFile file (.networkError message) s).processedData = s.processedData ∧
      (uploadFile file (.networkError message) s).currentFileId = s.currentFileId) ∧
    (∀ status, (uploadFile file (.httpError status) s).processedData = s.processedData ∧
      (uploadFile file (.httpError status) s).currentFileId = s.currentFileId) ∧
    (∀ message, (uploadFile file (.badJson message) s).processedData = s.processedData ∧
      (uploadFile file (.badJson message) s).currentFileId = s.currentFileId) ∧
    (∀ data file_id message,
      (uploadFile file (.json false data file_id message) s).processedData = s.processedData ∧
      (uploadFile file (.json false data file_id message) s).currentFileId = s.currentFileId) := by
  refine ⟨?_, ?_, ?_, ?_⟩ <;> intros <;>
    simp only [uploadFile, uploadTry, showError_frame, and_self]

/-- C11: with the Alice result loaded, an upload whose response is ok and
carries `success: true` with a payload that lacks `summary_stats` ends with the
error `Error uploading file: ...` shown and the results section hidden, yet
`processedData` is the new payload and `currentFileId` the new file id: both
are assigned before `displayResults` throws into the `catch` block. A response
with status 500 and a payload with `success: false` leave both as they were. -/
theorem uploadFile_caught_error_keeps_new_data :
    (loadedState aliceResult).processedData = some aliceResult ∧
    (loadedState aliceResult).currentFileId = .null ∧
    (uploadFile ⟨"bursts.xlsx"⟩ (.json true (some partialResult) (.str "file-2") .undefined)
        (loadedState aliceResult)).dom.errorMessage =
      some ⟨"Error uploading file: Cannot read properties of undefined (reading 'unique_officers')",
        false⟩ ∧
    (uploadFile ⟨"bursts.xlsx"⟩ (.json true (some partialResult) (.str "file-2") .undefined)
        (loadedState aliceResult)).dom.resultsSection = some ⟨"", true⟩ ∧
    (uploadFile ⟨"bursts.xlsx"⟩ (.json true (some partialResult) (.str "file-2") .undefined)
        (loadedState aliceResult)).processedData = some partialResult ∧
    (uploadFile ⟨"bursts.xlsx"⟩ (.json true (some partialResult) (.str "file-2") .undefined)
        (loadedState aliceResult)).currentFileId = .str "file-2" ∧
    (uploadFile ⟨"bursts.xlsx"⟩ (.json true (some partialResult) (.str "file-2") .undefined)
        (loadedState aliceResult)).processedData ≠ (loadedState aliceResult).processedData ∧
    (uploadFile ⟨"bursts.xlsx"⟩ (.httpError 500) (loadedState aliceResult)).processedData =
      some aliceResult ∧
    (uploadFile ⟨"bursts.xlsx"⟩ (.json false none .undefined (.str "bad sheet"))
        (loadedState aliceResult)).processedData = some aliceResult := by
  decide

end BurstAnalyzer
